import Mathlib

/-!
Shallow embedding of the inter-agent messaging and human-approval subsystem
of the repository (files `src/src/hitl_manager.py`, `src/Backend/src/hitl_protocol.py`,
`src/src/a2a_broker.py`, `src/src/a2a_agent_mixin.py`, `src/src/a2a_protocol.py`).

Modelling conventions:
- Python `dict` payloads that the algorithms never inspect (action data,
  context, metadata, message parameters) are modelled by the opaque type
  `Dict` (an association list of strings).
- `datetime` values are modelled as natural-number timestamps; `timedelta`
  addition is addition on `Nat`.  Timeouts (`float` seconds in Python, always
  non-negative in this code base) are modelled as `Nat`; Python truthiness of
  a timeout (`if timeout_seconds:`) is `t ≠ 0` on the `some` case.
- `uuid.uuid4()` and `datetime.now()` are environment inputs: functions that
  call them in Python take the fresh id / current time as extra arguments.
- Python insertion-ordered `dict`s keyed by strings are association lists
  (`PyDict` helpers below): assignment appends when the key is absent and
  updates in place otherwise, `del` removes the key, iteration follows
  insertion order.
- a Python callable that may raise is `α → Except String β` (the `error`
  case carries `str(e)`); an optional predicate that may raise is
  `Dict → Option Bool` with `none` standing for "raised".
- `async` points: the manager/broker coroutines are decomposed into the
  pure state transitions between their suspension points; the scheduling
  choice (a response was submitted before the deadline, or the timeout
  fired) is an explicit case split.
-/

/-- Opaque structured payload (a Python `dict` whose contents the algorithms
under verification never inspect). -/
abbrev Dict := List (String × String)

/-- Lookup in a Python-style insertion-ordered dict: the value stored at a
key, if present. -/
def PyDict.get? (l : List (String × α)) (k : String) : Option α :=
  (l.find? (fun e => e.1 = k)).map (fun e => e.2)

/-- Python dict assignment `d[k] = v`: update in place if the key exists,
else append at the end (insertion order). -/
def PyDict.set (l : List (String × α)) (k : String) (v : α) : List (String × α) :=
  match l with
  | [] => [(k, v)]
  | e :: es => if e.1 = k then (k, v) :: es else e :: PyDict.set es k v

/-- Python dict deletion `del d[k]` (a no-op if the key is absent; the code
only deletes keys it has just looked up). -/
def PyDict.erase (l : List (String × α)) (k : String) : List (String × α) :=
  l.filter (fun e => e.1 ≠ k)

/-- Membership test `k in d`. -/
def PyDict.hasKey (l : List (String × α)) (k : String) : Bool :=
  (PyDict.get? l k).isSome

/-- Types of actions that may require human approval (`HITLActionType`). -/
inductive HITLActionType where
  | AGENT_RESPONSE
  | AGENT_HANDOFF
  | API_CALL
  | DATA_RETRIEVAL
  | AGENT_COLLABORATION
  | USER_NOTIFICATION
  | CUSTOM
deriving DecidableEq, Repr

/-- Human decisions on pending actions (`HITLDecision`). -/
inductive HITLDecision where
  | APPROVED
  | REJECTED
  | MODIFIED
  | ESCALATED
  | NEEDS_INFO
  | PENDING
deriving DecidableEq, Repr

/-- Priority levels for HITL requests (`HITLPriority`). -/
inductive HITLPriority where
  | LOW
  | NORMAL
  | HIGH
  | CRITICAL
deriving DecidableEq, Repr

/-- Request for human review/approval (`HITLRequest`).  `created_at` and
`expires_at` are Nat timestamps; `request_id` is the uuid the environment
supplied. -/
structure HITLRequest where
  action_type : HITLActionType
  agent_id : String
  action_data : Dict
  request_id : String
  context : Dict
  priority : HITLPriority
  created_at : Nat
  expires_at : Option Nat
  metadata : Dict
deriving DecidableEq, Repr

/-- Human's response to a HITL request (`HITLResponse`). -/
structure HITLResponse where
  request_id : String
  decision : HITLDecision
  modified_data : Option Dict
  feedback : Option String
  decided_by : Option String
  decided_at : Nat
  metadata : Dict
deriving DecidableEq, Repr

/-- Policy defining when human approval is required (`HITLPolicy`).  The
`conditions` callable may raise: a `none` result of the function models a
raised exception. -/
structure HITLPolicy where
  name : String
  description : String
  action_types : List HITLActionType
  conditions : Option (Dict → Option Bool)
  priority : HITLPriority
  timeout_seconds : Option Nat
  auto_decision : Option HITLDecision

/-- Model of `HITLPolicy.should_trigger`: the action type must match; with no
conditions the policy triggers for all matching types; a raising condition
errs on the side of caution and triggers. -/
def HITLPolicy.should_trigger (p : HITLPolicy) (action_type : HITLActionType)
    (action_data : Dict) : Bool :=
  if ¬ (action_type ∈ p.action_types) then false
  else
    match p.conditions with
    | none => true
    | some cond =>
      match cond action_data with
      | some b => b
      | none => true

/-- Python `x or y` on optional timeouts: a `None` or `0` left operand falls
through to the right operand (`timeout_seconds or (...)` in
`request_approval`). -/
def pyOrTimeout (a b : Option Nat) : Option Nat :=
  match a with
  | some t => if t ≠ 0 then some t else b
  | none => b

/-- Helper `create_hitl_request` (from `hitl_protocol.py`): builds the
request; `expires_at` is set to `now + timeout_seconds` only when
`timeout_seconds` is truthy (`if timeout_seconds:` — `None` and `0` both
leave it unset). -/
def create_hitl_request (action_type : HITLActionType) (agent_id : String)
    (action_data : Dict) (context : Option Dict) (priority : HITLPriority)
    (timeout_seconds : Option Nat) (request_id : String) (now : Nat) :
    HITLRequest :=
  let base : HITLRequest :=
    { action_type := action_type
      agent_id := agent_id
      action_data := action_data
      request_id := request_id
      context := context.getD []
      priority := priority
      created_at := now
      expires_at := none
      metadata := [] }
  match timeout_seconds with
  | some t => if t ≠ 0 then { base with expires_at := some (now + t) } else base
  | none => base

/-- Statistics counters of the HITL manager (`self._stats`).  `pending` is an
`Int` because the Python code decrements it and nothing in the language stops
it from going negative. -/
structure HITLStats where
  total_requests : Nat
  approved : Nat
  rejected : Nat
  modified : Nat
  timeout : Nat
  pending : Int
deriving DecidableEq, Repr

/-- Initial statistics of a fresh `HITLManager`. -/
def HITLStats.init : HITLStats :=
  { total_requests := 0, approved := 0, rejected := 0, modified := 0,
    timeout := 0, pending := 0 }

/-- One entry of `self._history` (the dict built by `_record_history`). -/
structure HistoryItem where
  request : HITLRequest
  response : HITLResponse
  completed_at : Nat
deriving DecidableEq, Repr

/-- State of a `HITLManager`: policies, the pending-request table, stored
responses, the set of open correlation futures (by request id), the history
log and the statistics.  Callbacks are omitted: `_trigger_callbacks` swallows
every callback exception and the registered callbacks do not participate in
the verified operations. -/
structure HITLManager where
  policies : List HITLPolicy
  pending_requests : List (String × HITLRequest)
  responses : List (String × HITLResponse)
  request_futures : List String
  history : List HistoryItem
  stats : HITLStats

/-- Fresh manager (`HITLManager.__init__`). -/
def HITLManager.init : HITLManager :=
  { policies := [], pending_requests := [], responses := [],
    request_futures := [], history := [], stats := HITLStats.init }

/-- Model of `HITLManager.should_require_approval`: the for-loop returns `True` on the
first policy whose `should_trigger` holds, `False` if none does. -/
def HITLManager.should_require_approval (m : HITLManager)
    (action_type : HITLActionType) (action_data : Dict) : Bool :=
  m.policies.any (fun p => p.should_trigger action_type action_data)

/-- First policy (in registration order) that triggers for the action — the
`applicable_policy` loop at the top of `request_approval`. -/
def HITLManager.find_applicable_policy (m : HITLManager)
    (action_type : HITLActionType) (action_data : Dict) : Option HITLPolicy :=
  m.policies.find? (fun p => p.should_trigger action_type action_data)

/-- Model of `HITLManager._record_history`: append the completed request/response pair
and keep only the last 1000 items. -/
def record_history (history : List HistoryItem) (request : HITLRequest)
    (response : HITLResponse) (now : Nat) : List HistoryItem :=
  let h := history ++ [{ request := request, response := response, completed_at := now }]
  if h.length > 1000 then h.drop (h.length - 1000) else h

/-- First phase of `HITLManager.request_approval`, up to the suspension
point: pick the applicable policy, build the request via
`create_hitl_request` (priority from the policy, timeout
`timeout_seconds or policy.timeout_seconds` with Python truthiness), store
it in the pending table, bump `total_requests` and `pending`, and open the
correlation future.  Returns the new state and the created request. -/
def HITLManager.request_approval_start (m : HITLManager)
    (action_type : HITLActionType) (agent_id : String) (action_data : Dict)
    (context : Option Dict) (timeout_seconds : Option Nat)
    (request_id : String) (now : Nat) : HITLManager × HITLRequest :=
  let pol := m.find_applicable_policy action_type action_data
  let request := create_hitl_request action_type agent_id action_data context
    (match pol with | some p => p.priority | none => HITLPriority.NORMAL)
    (pyOrTimeout timeout_seconds
      (match pol with | some p => p.timeout_seconds | none => none))
    request_id now
  let m1 : HITLManager :=
    { m with
      pending_requests := PyDict.set m.pending_requests request.request_id request
      stats := { m.stats with
                 total_requests := m.stats.total_requests + 1
                 pending := m.stats.pending + 1 }
      request_futures := m.request_futures ++ [request.request_id] }
  (m1, request)

/-- Timeout branch of `request_approval` (the `except asyncio.TimeoutError`
handler): bump the `timeout` statistic, drop `pending`, synthesize the
automatic response (`auto_capture` is `applicable_policy.auto_decision` as
captured at the start of the call, `None` when no policy matched), record it,
and delete the request from the pending table and the future table. -/
def HITLManager.request_approval_timeout (m : HITLManager)
    (request : HITLRequest) (auto_capture : Option HITLDecision) (now : Nat) :
    HITLManager × HITLResponse :=
  let auto := auto_capture.getD HITLDecision.REJECTED
  let response : HITLResponse :=
    { request_id := request.request_id
      decision := auto
      modified_data := none
      feedback := some "Automatic decision due to timeout"
      decided_by := some "system"
      decided_at := now
      metadata := [] }
  let m1 : HITLManager :=
    { m with
      stats := { m.stats with
                 timeout := m.stats.timeout + 1
                 pending := m.stats.pending - 1 }
      responses := PyDict.set m.responses request.request_id response
      history := record_history m.history request response now
      pending_requests := PyDict.erase m.pending_requests request.request_id
      request_futures := m.request_futures.erase request.request_id }
  (m1, response)

/-- Complete run of `request_approval` in which `submit_response` is never
called for the created request.  If the request carries an `expires_at`, the
`asyncio.wait_for` deadline fires and the timeout branch produces the
synthetic response; with no `expires_at` the coroutine awaits the bare
future forever and never returns (modelled by `none` in the second
component, with the state frozen at the suspension point). -/
def HITLManager.request_approval_no_response (m : HITLManager)
    (action_type : HITLActionType) (agent_id : String) (action_data : Dict)
    (context : Option Dict) (timeout_seconds : Option Nat)
    (request_id : String) (now : Nat) : HITLManager × Option HITLResponse :=
  let pol := m.find_applicable_policy action_type action_data
  let started := m.request_approval_start action_type agent_id action_data
    context timeout_seconds request_id now
  match started.2.expires_at with
  | some deadline =>
    let fired := started.1.request_approval_timeout started.2
      (pol.bind (fun p => p.auto_decision)) deadline
    (fired.1, some fired.2)
  | none => (started.1, none)

/-- Model of `HITLManager.submit_response`: `False` (state untouched) when the
request id is not pending; otherwise store the response, update the
per-decision counters, record history, resolve and drop the future, delete
the pending entry, and return `True`. -/
def HITLManager.submit_response (m : HITLManager) (response : HITLResponse)
    (now : Nat) : HITLManager × Bool :=
  match PyDict.get? m.pending_requests response.request_id with
  | none => (m, false)
  | some request =>
    let s1 := { m.stats with pending := m.stats.pending - 1 }
    let s2 :=
      if response.decision = HITLDecision.APPROVED then
        { s1 with approved := s1.approved + 1 }
      else if response.decision = HITLDecision.REJECTED then
        { s1 with rejected := s1.rejected + 1 }
      else if response.decision = HITLDecision.MODIFIED then
        { s1 with modified := s1.modified + 1 }
      else s1
    let m1 : HITLManager :=
      { m with
        responses := PyDict.set m.responses response.request_id response
        stats := s2
        history := record_history m.history request response now
        request_futures := m.request_futures.erase response.request_id
        pending_requests := PyDict.erase m.pending_requests response.request_id }
    (m1, true)

/-- Model of `HITLManager.reset_statistics`: zero every counter except `pending`,
which is re-derived from the pending table size. -/
def HITLManager.reset_statistics (m : HITLManager) : HITLManager :=
  { m with
    stats := { total_requests := 0, approved := 0, rejected := 0,
               modified := 0, timeout := 0,
               pending := (m.pending_requests.length : Int) } }

/-- Numeric sort key used by `get_pending_requests` (`priority_order`). -/
def priority_order : HITLPriority → Nat
  | HITLPriority.CRITICAL => 0
  | HITLPriority.HIGH => 1
  | HITLPriority.NORMAL => 2
  | HITLPriority.LOW => 3

/-- Comparison relation realising Python's sort key
`(priority_order[r.priority], r.created_at)` for `list.sort`. -/
def reqLe (a b : HITLRequest) : Prop :=
  priority_order a.priority < priority_order b.priority ∨
    (priority_order a.priority = priority_order b.priority ∧
      a.created_at ≤ b.created_at)

instance : DecidableRel reqLe := fun a b => by
  unfold reqLe; infer_instance

/-- Filter pipeline of `get_pending_requests` before sorting.  Python
truthiness: an `agent_id` filter equal to the empty string is falsy and
filters nothing; the enum filters are always truthy when present. -/
def HITLManager.pending_matching (m : HITLManager) (agent_id : Option String)
    (action_type : Option HITLActionType) (priority : Option HITLPriority) :
    List HITLRequest :=
  let requests := m.pending_requests.map (fun e => e.2)
  let requests :=
    match agent_id with
    | some a => if a = "" then requests
                else requests.filter (fun r => r.agent_id = a)
    | none => requests
  let requests :=
    match action_type with
    | some t => requests.filter (fun r => r.action_type = t)
    | none => requests
  match priority with
  | some p => requests.filter (fun r => r.priority = p)
  | none => requests

/-- Model of `HITLManager.get_pending_requests`: filter, then stable-sort by
`(priority_order, created_at)` (Python `list.sort` is stable; so is
insertion sort). -/
def HITLManager.get_pending_requests (m : HITLManager)
    (agent_id : Option String) (action_type : Option HITLActionType)
    (priority : Option HITLPriority) : List HITLRequest :=
  List.insertionSort reqLe (m.pending_matching agent_id action_type priority)

/-- Types of A2A messages (`MessageType`). -/
inductive MessageType where
  | REQUEST
  | RESPONSE
  | NOTIFICATION
  | QUERY
  | HANDOFF
deriving DecidableEq, Repr

/-- Message priority levels (`MessagePriority`). -/
inductive MessagePriority where
  | LOW
  | NORMAL
  | HIGH
  | URGENT
deriving DecidableEq, Repr

/-- Content dict of an A2A message.  The source builds four fixed dict
shapes (`RequestSchema`, `ResponseSchema`, `NotificationSchema`,
`HandoffSchema`); arbitrary other dicts are `other`. -/
inductive A2AContent where
  | request (task : String) (parameters : Dict) (context : Dict)
  | response (success : Bool) (data : Option Dict) (error : Option String)
      (metadata : Dict)
  | notification (event : String) (data : Dict) (severity : String)
  | handoff (task : String) (context : Dict) (reason : String)
      (user_message : String)
  | other (raw : Dict)
deriving DecidableEq, Repr

/-- Standard message format for agent-to-agent communication (`A2AMessage`). -/
structure A2AMessage where
  sender : String
  recipient : String
  message_type : MessageType
  content : A2AContent
  message_id : String
  priority : MessagePriority
  timestamp : Nat
  metadata : Dict
  conversation_id : Option String
  reply_to : Option String
deriving DecidableEq, Repr

/-- Describes an agent's capability (`AgentCapability`). -/
structure AgentCapability where
  name : String
  description : String
  input_schema : Dict
  output_schema : Dict
  examples : List String
deriving DecidableEq, Repr

/-- Agent status literal `"active" | "busy" | "offline"`. -/
inductive AgentStatus where
  | active
  | busy
  | offline
deriving DecidableEq, Repr

/-- Profile describing an agent (`AgentProfile`). -/
structure AgentProfile where
  agent_id : String
  agent_type : String
  capabilities : List AgentCapability
  status : AgentStatus
  metadata : Dict
deriving DecidableEq, Repr

/-- Helper `create_response_message` from `a2a_protocol.py`: a RESPONSE
envelope with `ResponseSchema` content, fresh id and timestamp from the
environment, default NORMAL priority. -/
def create_response_message (sender recipient : String) (success : Bool)
    (data : Option Dict) (error : Option String) (reply_to : String)
    (conversation_id : String) (message_id : String) (now : Nat) :
    A2AMessage :=
  { sender := sender
    recipient := recipient
    message_type := MessageType.RESPONSE
    content := A2AContent.response success data error []
    message_id := message_id
    priority := MessagePriority.NORMAL
    timestamp := now
    metadata := []
    conversation_id := some conversation_id
    reply_to := some reply_to }

/-- Delivery handler registered with the broker.  It is the (possibly
raising) coroutine the broker awaits: `Except.error e` models a raised
exception with text `e`, the `Option` is the handler's direct (possibly
null) return value. -/
abbrev A2AHandler := A2AMessage → Except String (Option A2AMessage)

/-- State of an `A2AMessageBroker`: registry, handler table, per-agent and
per-conversation history, and the open correlation slots keyed by message
id.  (`_message_queue` exists in `__init__` but is never used by any
method and is omitted.) -/
structure A2ABroker where
  agents : List (String × AgentProfile)
  message_handlers : List (String × A2AHandler)
  message_history : List (String × List A2AMessage)
  conversation_history : List (String × List A2AMessage)
  pending_responses : List String

/-- Fresh broker (`A2AMessageBroker.__init__`). -/
def A2ABroker.init : A2ABroker :=
  { agents := [], message_handlers := [], message_history := [],
    conversation_history := [], pending_responses := [] }

/-- Model of `A2AMessageBroker.register_agent`: insert or overwrite profile and
handler; always returns `True`. -/
def A2ABroker.register_agent (b : A2ABroker) (profile : AgentProfile)
    (handler : A2AHandler) : A2ABroker × Bool :=
  ({ b with
     agents := PyDict.set b.agents profile.agent_id profile
     message_handlers := PyDict.set b.message_handlers profile.agent_id handler },
   true)

/-- Append a message to a defaultdict-of-list history table. -/
def historyAppend (h : List (String × List A2AMessage)) (k : String)
    (msg : A2AMessage) : List (String × List A2AMessage) :=
  PyDict.set h k ((PyDict.get? h k).getD [] ++ [msg])

/-- Model of `A2AMessageBroker.send_message`, single-task (synchronous-run)
semantics: no concurrently running task resolves the correlation slot, so a
REQUEST sent with `wait_for_response=True` resolves from the handler's
direct return value or times out.  Steps, exactly as in the source:
unknown or offline recipient fails fast with `None` (before any logging);
the envelope is appended to the sender's and recipient's logs and to the
conversation log when `conversation_id` is truthy; a missing handler yields
`None`; when waiting on a REQUEST a slot keyed by the message id is opened
before the handler runs; a non-null handler return resolves the slot; the
await then returns the resolved value immediately, or the timeout fires and
`None` is returned; a handler exception discards the slot and yields
`None`.  The `timeout` argument does not influence the outcome in this
single-task semantics and is kept for signature fidelity. -/
def A2ABroker.send_message (b : A2ABroker) (message : A2AMessage)
    (wait_for_response : Bool) (timeout : Nat) : A2ABroker × Option A2AMessage :=
  match PyDict.get? b.agents message.recipient with
  | none => (b, none)
  | some recipient_profile =>
    if recipient_profile.status = AgentStatus.offline then (b, none)
    else
      let hist1 := historyAppend b.message_history message.sender message
      let hist2 := historyAppend hist1 message.recipient message
      let conv :=
        match message.conversation_id with
        | some cid =>
          if cid = "" then b.conversation_history
          else historyAppend b.conversation_history cid message
        | none => b.conversation_history
      let b1 : A2ABroker :=
        { b with message_history := hist2, conversation_history := conv }
      match PyDict.get? b1.message_handlers message.recipient with
      | none => (b1, none)
      | some handler =>
        let waiting := wait_for_response ∧ message.message_type = MessageType.REQUEST
        let b2 : A2ABroker :=
          if waiting then
            { b1 with pending_responses := b1.pending_responses ++ [message.message_id] }
          else b1
        match handler message with
        | Except.error _ =>
          ({ b2 with pending_responses := b2.pending_responses.erase message.message_id },
           none)
        | Except.ok response =>
          if waiting then
            let b3 : A2ABroker :=
              { b2 with pending_responses := b2.pending_responses.erase message.message_id }
            match response with
            | some r => (b3, some r)
            | none => (b3, none)
          else (b2, response)

/-- Model of `A2AMessageBroker.broadcast_message`: iterate the registry keys in
insertion order; for every id not excluded and different from the sender,
build the per-recipient copy (same sender/type/content/priority/
conversation id, fresh message id and timestamp, default metadata, no
`reply_to`), send it without waiting, and count it.  `fresh` supplies the
per-clone uuids.  `broadcast_step` is one iteration of its loop. -/
def broadcast_step (message : A2AMessage) (exclude : List String)
    (fresh : Nat → String) (now : Nat) (acc : A2ABroker × Nat)
    (agent_id : String) : A2ABroker × Nat :=
  if agent_id ∉ exclude ∧ agent_id ≠ message.sender then
    let broadcast_msg : A2AMessage :=
      { sender := message.sender
        recipient := agent_id
        message_type := message.message_type
        content := message.content
        message_id := fresh acc.2
        priority := message.priority
        timestamp := now
        metadata := []
        conversation_id := message.conversation_id
        reply_to := none }
    ((acc.1.send_message broadcast_msg false 30).1, acc.2 + 1)
  else acc

/-- The broadcast loop itself: fold `broadcast_step` over the registry keys
in insertion order starting from count 0. -/
def A2ABroker.broadcast_message (b : A2ABroker) (message : A2AMessage)
    (exclude : List String) (fresh : Nat → String) (now : Nat) :
    A2ABroker × Nat :=
  (b.agents.map (fun e => e.1)).foldl
    (broadcast_step message exclude fresh now) (b, 0)

/-- The three overridable handlers a worker brings to the A2A mixin; each
may raise (`Except.error`). -/
structure AgentHandlers where
  handle_request : A2AMessage → Except String A2AMessage
  handle_handoff : A2AMessage → Except String A2AMessage
  handle_notification : A2AMessage → Except String Unit

/-- Model of `A2AAgentMixin._handle_a2a_message`: dispatch by message type; any
exception from the inner handler is caught and converted into an
error-carrying RESPONSE addressed back to the sender with
`reply_to = message.message_id` and `conversation_id or ""`; nothing is
re-raised (the function is total).  `message_id`/`now` are the uuid and
timestamp the environment hands to `create_response_message`. -/
def handle_a2a_message (agent_id : String) (h : AgentHandlers)
    (message : A2AMessage) (message_id : String) (now : Nat) :
    Option A2AMessage :=
  let dispatched : Except String (Option A2AMessage) :=
    match message.message_type with
    | MessageType.REQUEST => (h.handle_request message).map some
    | MessageType.HANDOFF => (h.handle_handoff message).map some
    | MessageType.NOTIFICATION =>
      (h.handle_notification message).map (fun _ => none)
    | _ => Except.ok none
  match dispatched with
  | Except.ok r => r
  | Except.error e =>
    some (create_response_message agent_id message.sender false none (some e)
      message.message_id ((message.conversation_id).getD "") message_id now)

/-- One observable operation on the HITL manager, for reasoning about
operation sequences.  `approve_start` is the first phase of
`request_approval`; `timeout_fire` is its timeout branch resuming later
(`auto_capture` is the applicable policy's `auto_decision` the coroutine
captured); `submit` is `submit_response`; `reset_stats` is
`reset_statistics`. -/
inductive HITLOp where
  | approve_start (action_type : HITLActionType) (agent_id : String)
      (action_data : Dict) (context : Option Dict)
      (timeout_seconds : Option Nat) (request_id : String) (now : Nat)
  | timeout_fire (request_id : String) (auto_capture : Option HITLDecision)
      (now : Nat)
  | submit (response : HITLResponse) (now : Nat)
  | reset_stats

/-- Apply one operation to the manager state.  A `timeout_fire` only has an
effect when the request is still pending with its correlation future open,
which is exactly when `asyncio.wait_for` can raise `TimeoutError` in the
source (a submitted response resolves the future first and deletes it). -/
def HITLOp.apply (op : HITLOp) (m : HITLManager) : HITLManager :=
  match op with
  | HITLOp.approve_start a ag d c t rid now =>
    (m.request_approval_start a ag d c t rid now).1
  | HITLOp.timeout_fire rid auto now =>
    (match PyDict.get? m.pending_requests rid with
     | some req =>
       if rid ∈ m.request_futures then (m.request_approval_timeout req auto now).1
       else m
     | none => m)
  | HITLOp.submit r now => (m.submit_response r now).1
  | HITLOp.reset_stats => m.reset_statistics

/-- Run a sequence of operations left to right. -/
def runOps (m : HITLManager) (ops : List HITLOp) : HITLManager :=
  ops.foldl (fun m op => op.apply m) m

/-- Validity of an operation sequence: every `approve_start` uses a request
id that is not already a pending key (uuid4 freshness — the only
environment assumption the invariant needs). -/
def validOps (m : HITLManager) : List HITLOp → Prop
  | [] => True
  | op :: ops =>
    (match op with
     | HITLOp.approve_start _ _ _ _ _ rid _ =>
       PyDict.hasKey m.pending_requests rid = false
     | _ => True) ∧ validOps (op.apply m) ops

/-- Policy `always_approve_responses` from `DefaultHITLPolicies`. -/
def demoPolicyApprove : HITLPolicy :=
  { name := "always_approve_responses"
    description := "Require human approval for all agent responses"
    action_types := [HITLActionType.AGENT_RESPONSE]
    conditions := none
    priority := HITLPriority.NORMAL
    timeout_seconds := some 300
    auto_decision := some HITLDecision.APPROVED }

/-- Manager with the single policy `demoPolicyApprove` registered. -/
def demoManager : HITLManager :=
  { HITLManager.init with policies := [demoPolicyApprove] }

/-- LOW-priority request created at time 0. -/
def demoReqLow : HITLRequest :=
  { action_type := HITLActionType.CUSTOM, agent_id := "a1", action_data := []
    request_id := "r1", context := [], priority := HITLPriority.LOW
    created_at := 0, expires_at := none, metadata := [] }

/-- CRITICAL-priority request created at time 1. -/
def demoReqCritical : HITLRequest :=
  { action_type := HITLActionType.CUSTOM, agent_id := "a2", action_data := []
    request_id := "r2", context := [], priority := HITLPriority.CRITICAL
    created_at := 1, expires_at := none, metadata := [] }

/-- NORMAL-priority request created at time 2. -/
def demoReqNormal : HITLRequest :=
  { action_type := HITLActionType.CUSTOM, agent_id := "a3", action_data := []
    request_id := "r3", context := [], priority := HITLPriority.NORMAL
    created_at := 2, expires_at := none, metadata := [] }

/-- Manager whose pending table holds the three requests above in creation
order LOW, CRITICAL, NORMAL. -/
def demoPrioManager : HITLManager :=
  { HITLManager.init with
    pending_requests :=
      [("r1", demoReqLow), ("r2", demoReqCritical), ("r3", demoReqNormal)] }

/-- Response submitted for a request id nothing is pending under. -/
def demoStrayResponse : HITLResponse :=
  { request_id := "ghost", decision := HITLDecision.APPROVED
    modified_data := none, feedback := none, decided_by := some "human"
    decided_at := 3, metadata := [] }

/-- RESPONSE envelope a demo worker replies with. -/
def demoRespMsg : A2AMessage :=
  { sender := "w", recipient := "s"
    message_type := MessageType.RESPONSE
    content := A2AContent.response true none none []
    message_id := "resp-1", priority := MessagePriority.NORMAL
    timestamp := 0, metadata := []
    conversation_id := some "c1", reply_to := some "req-1" }

/-- Handler that synchronously returns `demoRespMsg` for every envelope. -/
def demoHandler : A2AHandler := fun _ => Except.ok (some demoRespMsg)

/-- Profile of worker `w`, currently offline. -/
def demoProfileOffline : AgentProfile :=
  { agent_id := "w", agent_type := "specialist", capabilities := []
    status := AgentStatus.offline, metadata := [] }

/-- Profile of worker `w`, active. -/
def demoProfileActive : AgentProfile :=
  { agent_id := "w", agent_type := "specialist", capabilities := []
    status := AgentStatus.active, metadata := [] }

/-- Broker with the single registered (offline) worker `w`. -/
def demoBrokerOffline : A2ABroker :=
  (A2ABroker.init.register_agent demoProfileOffline demoHandler).1

/-- Broker with the single registered (active) worker `w`. -/
def demoBrokerActive : A2ABroker :=
  (A2ABroker.init.register_agent demoProfileActive demoHandler).1

/-- REQUEST envelope from `s` to `w`. -/
def demoRequestMsg : A2AMessage :=
  { sender := "s", recipient := "w"
    message_type := MessageType.REQUEST
    content := A2AContent.request "lookup" [] []
    message_id := "req-1", priority := MessagePriority.NORMAL
    timestamp := 0, metadata := []
    conversation_id := some "c1", reply_to := none }

/-- Supply of fresh uuids for broadcast clones. -/
def demoFresh : Nat → String := fun n => "bcast-" ++ toString n

/-- Mixin handlers that all raise with message `boom`. -/
def demoFaultHandlers : AgentHandlers :=
  { handle_request := fun _ => Except.error "boom"
    handle_handoff := fun _ => Except.error "boom"
    handle_notification := fun _ => Except.error "boom" }

/-- Human response approving request `rq1` at time 1. -/
def demoApproveRq1 : HITLResponse :=
  { request_id := "rq1", decision := HITLDecision.APPROVED
    modified_data := none, feedback := none, decided_by := some "human"
    decided_at := 1, metadata := [] }

/-- Demo operation sequence: create a request, approve it, fire a stale
timeout for it, then reset the statistics. -/
def demoOps : List HITLOp :=
  [HITLOp.approve_start HITLActionType.AGENT_RESPONSE "a1" [] none none "rq1" 0,
   HITLOp.submit demoApproveRq1 1,
   HITLOp.timeout_fire "rq1" (some HITLDecision.APPROVED) 300,
   HITLOp.reset_stats]

/-- Invariant relating the `pending` statistic to the pending table: the
counter equals the table size; auxiliarily, table keys are distinct and
every entry is keyed by its own request id (both hold in every reachable
state, since keys are fresh uuids chosen as the stored request's id). -/
def pendingInv (m : HITLManager) : Prop :=
  m.stats.pending = (m.pending_requests.length : Int) ∧
    (m.pending_requests.map (fun e => e.1)).Nodup ∧
    ∀ e ∈ m.pending_requests, e.2.request_id = e.1

theorem PyDict.get?_eq_none_iff (l : List (String × α)) (k : String) :
    PyDict.get? l k = none ↔ ∀ e ∈ l, e.1 ≠ k := by
  simp [PyDict.get?, List.find?_eq_none]

theorem PyDict.set_eq_append (l : List (String × α)) (k : String) (v : α)
    (h : ∀ e ∈ l, e.1 ≠ k) : PyDict.set l k v = l ++ [(k, v)] := by
  induction l with
  | nil => rfl
  | cons e es ih =>
    have he : e.1 ≠ k := h e (List.mem_cons_self e es)
    simp only [PyDict.set, if_neg he, List.cons_append, List.cons.injEq, true_and]
    exact ih (fun x hx => h x (List.mem_cons_of_mem e hx))

theorem PyDict.erase_append_singleton (l : List (String × α)) (k : String) (v : α) :
    PyDict.erase (l ++ [(k, v)]) k = PyDict.erase l k := by
  simp [PyDict.erase, List.filter_append]

theorem PyDict.erase_eq_self (l : List (String × α)) (k : String)
    (h : ∀ e ∈ l, e.1 ≠ k) : PyDict.erase l k = l := by
  refine List.filter_eq_self.mpr ?_
  intro e he
  simpa using h e he

theorem PyDict.get?_erase (l : List (String × α)) (k : String) :
    PyDict.get? (PyDict.erase l k) k = none := by
  rw [PyDict.get?_eq_none_iff]
  intro e he
  have := List.of_mem_filter he
  simpa using this

/-- Lemma: `HITLPolicy.should_trigger` is true exactly when the action type is one
the policy applies to and the predicate is absent, true, or raised. -/
theorem HITLPolicy.should_trigger_iff (p : HITLPolicy) (kind : HITLActionType)
    (data : Dict) :
    p.should_trigger kind data = true ↔
      kind ∈ p.action_types ∧
        (p.conditions = none ∨
          ∃ f, p.conditions = some f ∧ (f data = some true ∨ f data = none)) := by
  unfold HITLPolicy.should_trigger
  by_cases hmem : kind ∈ p.action_types
  · rw [if_neg (by simpa using hmem)]
    cases hc : p.conditions with
    | none => simp [hmem]
    | some f =>
      cases hfd : f data with
      | none => simp [hmem, hfd]
      | some b => cases b <;> simp [hmem, hfd]
  · rw [if_pos (by simpa using hmem)]
    simp [hmem]

/-- C5: `should_require_approval(kind, data)` returns true iff some
registered policy's action kinds contain `kind` and the policy either has no
predicate, or its predicate returns true on `data`, or its predicate raises
(`none` in the model) — a raising predicate triggers approval, it never
bypasses it. -/
theorem C5_should_require_approval_iff (m : HITLManager)
    (kind : HITLActionType) (data : Dict) :
    m.should_require_approval kind data = true ↔
      ∃ p ∈ m.policies, kind ∈ p.action_types ∧
        (p.conditions = none ∨
          ∃ f, p.conditions = some f ∧ (f data = some true ∨ f data = none)) := by
  unfold HITLManager.should_require_approval
  rw [List.any_eq_true]
  constructor
  · rintro ⟨p, hp, htrig⟩
    exact ⟨p, hp, (p.should_trigger_iff kind data).mp htrig⟩
  · rintro ⟨p, hp, hprop⟩
    exact ⟨p, hp, (p.should_trigger_iff kind data).mpr hprop⟩

/-- C3: submitting a response for a request id that is not pending returns
`false` and the whole manager state — statistics, history, stored
responses, pending table — is returned unchanged. -/
theorem C3_submit_response_unknown_id (m : HITLManager)
    (response : HITLResponse) (now : Nat)
    (h : PyDict.get? m.pending_requests response.request_id = none) :
    m.submit_response response now = (m, false) := by
  unfold HITLManager.submit_response
  rw [h]

/-- Witness for C3: a fresh manager has nothing pending under `ghost`, and
submitting `demoStrayResponse` returns `false` with the state unchanged. -/
theorem C3_submit_response_unknown_id_witness :
    PyDict.get? HITLManager.init.pending_requests demoStrayResponse.request_id
        = none ∧
      HITLManager.init.submit_response demoStrayResponse 3
        = (HITLManager.init, false) :=
  ⟨rfl, C3_submit_response_unknown_id HITLManager.init demoStrayResponse 3 rfl⟩

theorem create_hitl_request_expires_at (action_type : HITLActionType)
    (agent_id : String) (action_data : Dict) (context : Option Dict)
    (priority : HITLPriority) (ts : Option Nat) (rid : String) (now : Nat) :
    (create_hitl_request action_type agent_id action_data context priority
        ts rid now).expires_at =
      match ts with
      | some t => if t ≠ 0 then some (now + t) else none
      | none => none := by
  unfold create_hitl_request
  rcases ts with _ | t
  · rfl
  · by_cases h : t = 0 <;> simp [h]

theorem create_hitl_request_created_at (action_type : HITLActionType)
    (agent_id : String) (action_data : Dict) (context : Option Dict)
    (priority : HITLPriority) (ts : Option Nat) (rid : String) (now : Nat) :
    (create_hitl_request action_type agent_id action_data context priority
        ts rid now).created_at = now := by
  unfold create_hitl_request
  rcases ts with _ | t
  · rfl
  · by_cases h : t = 0 <;> simp [h]

theorem create_hitl_request_request_id (action_type : HITLActionType)
    (agent_id : String) (action_data : Dict) (context : Option Dict)
    (priority : HITLPriority) (ts : Option Nat) (rid : String) (now : Nat) :
    (create_hitl_request action_type agent_id action_data context priority
        ts rid now).request_id = rid := by
  unfold create_hitl_request
  rcases ts with _ | t
  · rfl
  · by_cases h : t = 0 <;> simp [h]

theorem pyOrTimeout_some_of_pos (a : Option Nat) (T : Nat) (hT : T ≠ 0) :
    ∃ u, pyOrTimeout a (some T) = some u ∧ u ≠ 0 := by
  rcases a with _ | t
  · exact ⟨T, rfl, hT⟩
  · by_cases h : t = 0
    · exact ⟨T, by simp [pyOrTimeout, h], hT⟩
    · exact ⟨t, by simp [pyOrTimeout, h], h⟩

/-- C8: whenever a request created by `request_approval` (via
`create_hitl_request`) carries an `expires_at`, it equals `created_at` plus
the timeout that governed the request: the caller-supplied timeout when
that is truthy, otherwise the governing policy's timeout. -/
theorem C8_expires_at_eq_created_at_add_timeout (m : HITLManager)
    (kind : HITLActionType) (agent : String) (data : Dict)
    (ctx : Option Dict) (tmo : Option Nat) (rid : String) (now : Nat)
    (e : Nat)
    (he : (m.request_approval_start kind agent data ctx tmo rid now).2.expires_at
        = some e) :
    ∃ t, t ≠ 0 ∧
      e = (m.request_approval_start kind agent data ctx tmo rid now).2.created_at
            + t ∧
      (tmo = some t ∨
        ((tmo = none ∨ tmo = some 0) ∧
          ∃ p, m.find_applicable_policy kind data = some p ∧
            p.timeout_seconds = some t)) := by
  unfold HITLManager.request_approval_start at he ⊢
  simp only [create_hitl_request_expires_at, create_hitl_request_created_at] at he ⊢
  rcases tmo with _ | t
  · rcases hfind : m.find_applicable_policy kind data with _ | p <;>
      simp only [hfind, pyOrTimeout] at he ⊢
    · exact absurd he (by simp)
    · rcases hts : p.timeout_seconds with _ | t <;> simp only [hts] at he
      · exact absurd he (by simp)
      · by_cases ht : t = 0
        · rw [if_neg (by simpa using ht)] at he
          exact absurd he (by simp)
        · rw [if_pos ht] at he
          refine ⟨t, ht, by simpa using he.symm, Or.inr ⟨Or.inl trivial, p, rfl, hts⟩⟩
  · by_cases ht : t = 0
    · subst ht
      rcases hfind : m.find_applicable_policy kind data with _ | p <;>
        simp only [hfind, pyOrTimeout, if_neg (by simp : ¬ (0 : Nat) ≠ 0)] at he ⊢
      · exact absurd he (by simp)
      · rcases hts : p.timeout_seconds with _ | u <;> simp only [hts] at he
        · exact absurd he (by simp)
        · by_cases hu : u = 0
          · rw [if_neg (by simpa using hu)] at he
            exact absurd he (by simp)
          · rw [if_pos hu] at he
            refine ⟨u, hu, by simpa using he.symm,
              Or.inr ⟨Or.inr trivial, p, rfl, hts⟩⟩
    · simp only [pyOrTimeout, if_pos ht, if_pos ht] at he
      exact ⟨t, ht, by simpa using he.symm, Or.inl rfl⟩

/-- Witness for C8: with `demoManager` (policy timeout 300) and no caller
timeout, the created request expires at `created_at + 300`. -/
theorem C8_expires_at_witness :
    (demoManager.request_approval_start HITLActionType.AGENT_RESPONSE "a1" []
        none none "rq1" 7).2.expires_at = some 307 ∧
      ∃ t, t ≠ 0 ∧
        (307 : Nat) =
          (demoManager.request_approval_start HITLActionType.AGENT_RESPONSE
              "a1" [] none none "rq1" 7).2.created_at + t ∧
        ((none : Option Nat) = some t ∨
          (((none : Option Nat) = none ∨ (none : Option Nat) = some 0) ∧
            ∃ p, demoManager.find_applicable_policy
                HITLActionType.AGENT_RESPONSE [] = some p ∧
              p.timeout_seconds = some t)) :=
  ⟨rfl, C8_expires_at_eq_created_at_add_timeout demoManager
    HITLActionType.AGENT_RESPONSE "a1" [] none none "rq1" 7 307 rfl⟩

/-- Counterexample to C9 as stated: calling `request_approval` with an
explicit timeout of 0 while the governing policy has timeout 300 does set
`expires_at` (to `created_at + 300`) and does produce a timeout-synthesized
auto-decision (`decided_by = "system"`, the policy's APPROVED), because
Python's `timeout_seconds or policy.timeout_seconds` treats the explicit 0
as absent and falls back to the policy timeout. -/
theorem C9_zero_timeout_counterexample :
    (demoManager.request_approval_start HITLActionType.AGENT_RESPONSE "a1" []
        none (some 0) "rq1" 0).2.expires_at = some 300 ∧
      ((demoManager.request_approval_no_response HITLActionType.AGENT_RESPONSE
          "a1" [] none (some 0) "rq1" 0).2.map
        (fun r => (r.decided_by, r.decision)))
        = some (some "system", HITLDecision.APPROVED) :=
  ⟨rfl, rfl⟩

/-- C9 as amended: an explicit caller timeout of 0 is treated as absent and
falls back to the governing policy's timeout; only when the *effective*
timeout (the caller's when nonzero, else the policy's) is 0 or absent is
`expires_at` left unset and the call suspended indefinitely, never producing
a timeout-synthesized auto-decision. -/
theorem C9_zero_timeout_amended (m : HITLManager) (kind : HITLActionType)
    (agent : String) (data : Dict) (ctx : Option Dict) (tmo : Option Nat)
    (rid : String) (now : Nat)
    (heff : pyOrTimeout tmo
          (match m.find_applicable_policy kind data with
           | some p => p.timeout_seconds
           | none => none) = none ∨
        pyOrTimeout tmo
          (match m.find_applicable_policy kind data with
           | some p => p.timeout_seconds
           | none => none) = some 0) :
    (m.request_approval_start kind agent data ctx tmo rid now).2.expires_at
        = none ∧
      (m.request_approval_no_response kind agent data ctx tmo rid now).2
        = none := by
  have h1 : (m.request_approval_start kind agent data ctx tmo rid now).2.expires_at
      = none := by
    simp only [HITLManager.request_approval_start,
      create_hitl_request_expires_at]
    rcases heff with h | h <;> rw [h] <;> simp
  refine ⟨h1, ?_⟩
  simp only [HITLManager.request_approval_no_response]
  rw [h1]

/-- Witness for the amended C9: a fresh manager (no policy) with an explicit
caller timeout of 0 leaves `expires_at` unset and the call never returns. -/
theorem C9_zero_timeout_amended_witness :
    (pyOrTimeout (some 0)
        (match HITLManager.init.find_applicable_policy
            HITLActionType.AGENT_RESPONSE [] with
         | some p => p.timeout_seconds
         | none => none) = none) ∧
      (HITLManager.init.request_approval_start HITLActionType.AGENT_RESPONSE
          "a1" [] none (some 0) "rq1" 0).2.expires_at = none ∧
      (HITLManager.init.request_approval_no_response
          HITLActionType.AGENT_RESPONSE "a1" [] none (some 0) "rq1" 0).2
        = none :=
  ⟨rfl, C9_zero_timeout_amended HITLManager.init HITLActionType.AGENT_RESPONSE
    "a1" [] none (some 0) "rq1" 0 (Or.inl rfl)⟩

instance : IsTotal HITLRequest reqLe where
  total a b := by
    unfold reqLe
    rcases Nat.lt_trichotomy (priority_order a.priority)
        (priority_order b.priority) with h | h | h
    · exact Or.inl (Or.inl h)
    · rcases Nat.le_total a.created_at b.created_at with h2 | h2
      · exact Or.inl (Or.inr ⟨h, h2⟩)
      · exact Or.inr (Or.inr ⟨h.symm, h2⟩)
    · exact Or.inr (Or.inl h)

instance : IsTrans HITLRequest reqLe where
  trans a b c hab hbc := by
    unfold reqLe at hab hbc ⊢
    rcases hab with h1 | ⟨h1, h1c⟩ <;> rcases hbc with h2 | ⟨h2, h2c⟩
    · exact Or.inl (h1.trans h2)
    · exact Or.inl (h2 ▸ h1)
    · exact Or.inl (h1 ▸ h2)
    · exact Or.inr ⟨h1.trans h2, h1c.trans h2c⟩

/-- C6: for every manager state and every filter combination,
`get_pending_requests` returns exactly the matching pending requests (a
permutation of the filter pipeline's output) sorted by the key
`(priority_order, created_at)` — CRITICAL before HIGH before NORMAL before
LOW, ties broken by creation time ascending; in particular, pending
requests with priorities LOW, CRITICAL, NORMAL created in that order come
back ordered CRITICAL, NORMAL, LOW. -/
theorem C6_get_pending_sorted :
    (∀ (m : HITLManager) (a : Option String) (k : Option HITLActionType)
        (p : Option HITLPriority),
      List.Sorted reqLe (m.get_pending_requests a k p) ∧
        (m.get_pending_requests a k p).Perm (m.pending_matching a k p)) ∧
      demoPrioManager.get_pending_requests none none none
        = [demoReqCritical, demoReqNormal, demoReqLow] := by
  refine ⟨fun m a k p => ⟨?_, ?_⟩, ?_⟩
  · exact List.sorted_insertionSort reqLe (m.pending_matching a k p)
  · exact List.perm_insertionSort reqLe (m.pending_matching a k p)
  · decide

theorem record_history_getLast (h : List HistoryItem) (req : HITLRequest)
    (resp : HITLResponse) (now : Nat) :
    (record_history h req resp now).getLast? =
      some { request := req, response := resp, completed_at := now } := by
  simp only [record_history]
  split
  · rw [List.drop_append_of_le_length (by simp), List.getLast?_concat]
  · rw [List.getLast?_concat]

theorem pending_matching_none (m : HITLManager) :
    m.pending_matching none none none = m.pending_requests.map (fun e => e.2) :=
  rfl

/-- C1: when the first policy triggering for the action has a (nonzero)
timeout and `submit_response` never arrives, `request_approval` returns the
timeout-synthesized response: its decision is the policy's `auto_decision`
(REJECTED when the policy sets none), its `decided_by` is `"system"`; the
request is gone from the pending table and from `get_pending`, the
completed pair is the last history entry, and the `timeout` statistic is
incremented — the caller gets a decision value, never a raw timeout error.
The freshness hypotheses model uuid4 uniqueness of the new request id, and
`hwf` is the table invariant that every pending entry is keyed by its own
request id. -/
theorem C1_timeout_auto_decision (m : HITLManager) (kind : HITLActionType)
    (agent : String) (data : Dict) (ctx : Option Dict) (tmo : Option Nat)
    (rid : String) (now : Nat) (p : HITLPolicy) (T : Nat)
    (hpol : m.find_applicable_policy kind data = some p)
    (hT : p.timeout_seconds = some T) (hT0 : T ≠ 0)
    (hfresh : ∀ e ∈ m.pending_requests, e.1 ≠ rid)
    (hwf : ∀ e ∈ m.pending_requests, e.2.request_id = e.1) :
    ((m.request_approval_no_response kind agent data ctx tmo rid now).2.map
        (fun r => r.decision))
        = some (p.auto_decision.getD HITLDecision.REJECTED) ∧
      ((m.request_approval_no_response kind agent data ctx tmo rid now).2.map
        (fun r => r.decided_by)) = some (some "system") ∧
      PyDict.get?
        (m.request_approval_no_response kind agent data ctx tmo rid
          now).1.pending_requests rid = none ∧
      (∀ r ∈ (m.request_approval_no_response kind agent data ctx tmo rid
          now).1.get_pending_requests none none none, r.request_id ≠ rid) ∧
      (m.request_approval_no_response kind agent data ctx tmo rid
          now).1.stats.timeout = m.stats.timeout + 1 ∧
      ((m.request_approval_no_response kind agent data ctx tmo rid
          now).1.history.getLast?).map
          (fun it => (it.request.request_id, it.response.decision,
            it.response.decided_by))
        = some (rid, p.auto_decision.getD HITLDecision.REJECTED,
            some "system") := by
  obtain ⟨u, hu_eq, hu0⟩ := pyOrTimeout_some_of_pos tmo T hT0
  have hpolT : (match m.find_applicable_policy kind data with
      | some q => q.timeout_seconds
      | none => none) = some T := by
    simp only [hpol]
    exact hT
  have hexp : (m.request_approval_start kind agent data ctx tmo rid
      now).2.expires_at = some (now + u) := by
    simp only [HITLManager.request_approval_start,
      create_hitl_request_expires_at, hpolT, hu_eq]
    simp [hu0]
  have hrid2 : (m.request_approval_start kind agent data ctx tmo rid
      now).2.request_id = rid := by
    simp only [HITLManager.request_approval_start,
      create_hitl_request_request_id]
  have hbind : (m.find_applicable_policy kind data).bind
      (fun q => q.auto_decision) = p.auto_decision := by
    rw [hpol]; rfl
  have hRdef : m.request_approval_no_response kind agent data ctx tmo rid now
      = (((m.request_approval_start kind agent data ctx tmo rid
            now).1.request_approval_timeout
          (m.request_approval_start kind agent data ctx tmo rid now).2
          ((m.find_applicable_policy kind data).bind fun q => q.auto_decision)
          (now + u)).1,
        some ((m.request_approval_start kind agent data ctx tmo rid
            now).1.request_approval_timeout
          (m.request_approval_start kind agent data ctx tmo rid now).2
          ((m.find_applicable_policy kind data).bind fun q => q.auto_decision)
          (now + u)).2) := by
    simp only [HITLManager.request_approval_no_response, hexp]
  have hM1p : (m.request_approval_start kind agent data ctx tmo rid
      now).1.pending_requests
      = m.pending_requests
          ++ [(rid, (m.request_approval_start kind agent data ctx tmo rid
            now).2)] := by
    simp only [HITLManager.request_approval_start,
      create_hitl_request_request_id]
    exact PyDict.set_eq_append _ _ _ hfresh
  have hM2p : ((m.request_approval_start kind agent data ctx tmo rid
      now).1.request_approval_timeout
        (m.request_approval_start kind agent data ctx tmo rid now).2
        ((m.find_applicable_policy kind data).bind fun q => q.auto_decision)
        (now + u)).1.pending_requests = m.pending_requests := by
    simp only [HITLManager.request_approval_timeout]
    rw [hM1p, hrid2, PyDict.erase_append_singleton,
      PyDict.erase_eq_self _ _ hfresh]
  refine ⟨?_, ?_, ?_, ?_, ?_, ?_⟩
  · simp only [hRdef, HITLManager.request_approval_timeout, hbind,
      Option.map_some']
  · simp only [hRdef, HITLManager.request_approval_timeout, Option.map_some']
  · simp only [hRdef, HITLManager.request_approval_timeout, hrid2]
    exact PyDict.get?_erase _ rid
  · intro r hr
    simp only [hRdef] at hr
    unfold HITLManager.get_pending_requests at hr
    rw [List.mem_insertionSort reqLe, pending_matching_none, hM2p] at hr
    obtain ⟨e, he, hre⟩ := List.mem_map.mp hr
    rw [← hre, hwf e he]
    exact hfresh e he
  · simp only [hRdef, HITLManager.request_approval_timeout,
      HITLManager.request_approval_start]
  · simp only [hRdef, HITLManager.request_approval_timeout,
      HITLManager.request_approval_start]
    rw [record_history_getLast]
    simp only [Option.map_some']
    rw [create_hitl_request_request_id, hbind]

/-- Witness for C1: `demoManager` (policy with timeout 300, auto-decision
APPROVED), a request at time 0 with no caller timeout, no response ever
submitted. -/
theorem C1_timeout_auto_decision_witness :
    (300 : Nat) ≠ 0 ∧
      (((demoManager.request_approval_no_response HITLActionType.AGENT_RESPONSE
          "a1" [] none none "rq1" 0).2.map (fun r => r.decision))
          = some (demoPolicyApprove.auto_decision.getD HITLDecision.REJECTED) ∧
        ((demoManager.request_approval_no_response HITLActionType.AGENT_RESPONSE
          "a1" [] none none "rq1" 0).2.map (fun r => r.decided_by))
          = some (some "system") ∧
        PyDict.get?
          (demoManager.request_approval_no_response HITLActionType.AGENT_RESPONSE
            "a1" [] none none "rq1" 0).1.pending_requests "rq1" = none ∧
        (∀ r ∈ (demoManager.request_approval_no_response
            HITLActionType.AGENT_RESPONSE "a1" [] none none "rq1"
            0).1.get_pending_requests none none none, r.request_id ≠ "rq1") ∧
        (demoManager.request_approval_no_response HITLActionType.AGENT_RESPONSE
            "a1" [] none none "rq1" 0).1.stats.timeout
          = demoManager.stats.timeout + 1 ∧
        ((demoManager.request_approval_no_response HITLActionType.AGENT_RESPONSE
            "a1" [] none none "rq1" 0).1.history.getLast?).map
            (fun it => (it.request.request_id, it.response.decision,
              it.response.decided_by))
          = some ("rq1", demoPolicyApprove.auto_decision.getD
              HITLDecision.REJECTED, some "system")) :=
  ⟨by decide,
    C1_timeout_auto_decision demoManager HITLActionType.AGENT_RESPONSE "a1" []
      none none "rq1" 0 demoPolicyApprove 300 rfl rfl (by decide)
      (by simp [demoManager, HITLManager.init])
      (by simp [demoManager, HITLManager.init])⟩

/-- Counterexample to C2 as stated: worker `w` is registered (with a handler
that synchronously returns the RESPONSE `demoRespMsg`) but its status is
offline, and `send_message` of a REQUEST with `wait_for_response=True`
returns `None` instead of that RESPONSE — the claim omits the recipient
status check that `send_message` performs before delivering. -/
theorem C2_sync_response_counterexample :
    PyDict.get? demoBrokerOffline.agents demoRequestMsg.recipient
        = some demoProfileOffline ∧
      demoHandler demoRequestMsg = Except.ok (some demoRespMsg) ∧
      demoRespMsg.message_type = MessageType.RESPONSE ∧
      demoRequestMsg.message_type = MessageType.REQUEST ∧
      (demoBrokerOffline.send_message demoRequestMsg true 30).2 = none :=
  ⟨rfl, rfl, rfl, rfl, rfl⟩

/-- C2 as amended: for every registered recipient *whose status is not
offline* and whose handler synchronously returns a non-null RESPONSE
envelope, `send_message` of a REQUEST with `wait_for_response=true` and any
timeout returns exactly that RESPONSE (resolved through the correlation
slot opened before the handler ran, independent of the timeout value). -/
theorem C2_sync_response_amended (b : A2ABroker) (msg resp : A2AMessage)
    (prof : AgentProfile) (handler : A2AHandler) (timeout : Nat)
    (hreg : PyDict.get? b.agents msg.recipient = some prof)
    (hstat : prof.status ≠ AgentStatus.offline)
    (hh : PyDict.get? b.message_handlers msg.recipient = some handler)
    (hret : handler msg = Except.ok (some resp))
    (htyp : msg.message_type = MessageType.REQUEST)
    (hrt : resp.message_type = MessageType.RESPONSE)
    (hpos : 0 < timeout) :
    (b.send_message msg true timeout).2 = some resp := by
  simp [A2ABroker.send_message, hreg, hh, hret, htyp, hstat]

/-- Witness for the amended C2: the active demo broker returns the
handler's RESPONSE. -/
theorem C2_sync_response_amended_witness :
    PyDict.get? demoBrokerActive.agents demoRequestMsg.recipient
        = some demoProfileActive ∧
      demoProfileActive.status ≠ AgentStatus.offline ∧
      PyDict.get? demoBrokerActive.message_handlers demoRequestMsg.recipient
        = some demoHandler ∧
      demoHandler demoRequestMsg = Except.ok (some demoRespMsg) ∧
      demoRequestMsg.message_type = MessageType.REQUEST ∧
      demoRespMsg.message_type = MessageType.RESPONSE ∧
      (0 : Nat) < 30 ∧
      (demoBrokerActive.send_message demoRequestMsg true 30).2
        = some demoRespMsg :=
  ⟨rfl, by decide, rfl, rfl, rfl, rfl, by decide,
    C2_sync_response_amended demoBrokerActive demoRequestMsg demoRespMsg
      demoProfileActive demoHandler 30 rfl (by decide) rfl rfl rfl rfl
      (by decide)⟩

/-- C4: an exception raised inside the request, handoff, or notification
handler is caught at the dispatch boundary and becomes a RESPONSE envelope
with `success=false` and the exception text as `error`, addressed back to
the envelope's sender with `reply_to` set to the envelope's id; the
dispatch function is total — it never re-raises to the broker. -/
theorem C4_handler_exception_to_response (agent_id : String)
    (h : AgentHandlers) (msg : A2AMessage) (mid : String) (now : Nat)
    (e : String)
    (hcase :
      (msg.message_type = MessageType.REQUEST ∧
        h.handle_request msg = Except.error e) ∨
      (msg.message_type = MessageType.HANDOFF ∧
        h.handle_handoff msg = Except.error e) ∨
      (msg.message_type = MessageType.NOTIFICATION ∧
        h.handle_notification msg = Except.error e)) :
    handle_a2a_message agent_id h msg mid now
        = some (create_response_message agent_id msg.sender false none (some e)
            msg.message_id ((msg.conversation_id).getD "") mid now) ∧
      (create_response_message agent_id msg.sender false none (some e)
          msg.message_id ((msg.conversation_id).getD "") mid
          now).message_type = MessageType.RESPONSE ∧
      (create_response_message agent_id msg.sender false none (some e)
          msg.message_id ((msg.conversation_id).getD "") mid now).content
        = A2AContent.response false none (some e) [] ∧
      (create_response_message agent_id msg.sender false none (some e)
          msg.message_id ((msg.conversation_id).getD "") mid now).recipient
        = msg.sender ∧
      (create_response_message agent_id msg.sender false none (some e)
          msg.message_id ((msg.conversation_id).getD "") mid now).reply_to
        = some msg.message_id := by
  refine ⟨?_, rfl, rfl, rfl, rfl⟩
  rcases hcase with ⟨ht, he⟩ | ⟨ht, he⟩ | ⟨ht, he⟩ <;>
    simp [handle_a2a_message, ht, he, Except.map]

/-- Witness for C4: the all-raising demo handlers on a REQUEST envelope. -/
theorem C4_handler_exception_witness :
    demoFaultHandlers.handle_request demoRequestMsg = Except.error "boom" ∧
      handle_a2a_message "w" demoFaultHandlers demoRequestMsg "resp-9" 4
        = some (create_response_message "w" demoRequestMsg.sender false none
            (some "boom") demoRequestMsg.message_id
            ((demoRequestMsg.conversation_id).getD "") "resp-9" 4) :=
  ⟨rfl,
    (C4_handler_exception_to_response "w" demoFaultHandlers demoRequestMsg
      "resp-9" 4 "boom" (Or.inl ⟨rfl, rfl⟩)).1⟩

theorem broadcast_step_snd (message : A2AMessage) (exclude : List String)
    (fresh : Nat → String) (now : Nat) (acc : A2ABroker × Nat)
    (aid : String) :
    (broadcast_step message exclude fresh now acc aid).2
      = if aid ∉ exclude ∧ aid ≠ message.sender then acc.2 + 1 else acc.2 := by
  unfold broadcast_step
  split
  · rfl
  · rfl

theorem broadcast_foldl_count (message : A2AMessage) (exclude : List String)
    (fresh : Nat → String) (now : Nat) (l : List String) :
    ∀ acc : A2ABroker × Nat,
      (l.foldl (broadcast_step message exclude fresh now) acc).2
        = acc.2 + (l.filter
            (fun aid => decide (aid ∉ exclude ∧ aid ≠ message.sender))).length := by
  induction l with
  | nil => intro acc; simp
  | cons a l ih =>
    intro acc
    rw [List.foldl_cons, ih, broadcast_step_snd]
    by_cases hc : a ∉ exclude ∧ a ≠ message.sender
    · rw [if_pos hc]
      simp [List.filter_cons, hc]
      omega
    · rw [if_neg hc]
      simp [List.filter_cons, hc]

/-- Counterexample to C7 as stated: the only registered worker is offline
(so the set of *active* recipients other than the sender is empty), yet
`broadcast_message` still clones the envelope for it and reports 1 attempted
recipient — the count is over registered recipients regardless of status. -/
theorem C7_broadcast_counterexample :
    (demoBrokerOffline.broadcast_message demoRequestMsg [] demoFresh 0).2
        = 1 ∧
      (demoBrokerOffline.agents.filter
        (fun en => decide (en.2.status ≠ AgentStatus.offline ∧
          en.1 ∉ ([] : List String) ∧ en.1 ≠ demoRequestMsg.sender))).length
        = 0 :=
  ⟨rfl, rfl⟩

/-- C7 as amended: `broadcast_message` clones and sends the envelope once
per registered recipient other than the sender and the excluded ids,
*regardless of recipient status*, and returns exactly the number of such
recipients — individual send failures (offline recipient, handler fault)
do not reduce the count and are not surfaced. -/
theorem C7_broadcast_count_amended (b : A2ABroker) (message : A2AMessage)
    (exclude : List String) (fresh : Nat → String) (now : Nat) :
    (b.broadcast_message message exclude fresh now).2
      = ((b.agents.map (fun en => en.1)).filter
          (fun aid => decide (aid ∉ exclude ∧ aid ≠ message.sender))).length := by
  unfold A2ABroker.broadcast_message
  rw [broadcast_foldl_count]
  simp

theorem PyDict.get?_eq_some_mem (l : List (String × α)) (k : String) (v : α)
    (h : PyDict.get? l k = some v) : (k, v) ∈ l := by
  unfold PyDict.get? at h
  cases hf : l.find? (fun e => e.1 = k) with
  | none => rw [hf] at h; exact absurd h (by simp)
  | some e =>
    rw [hf] at h
    simp only [Option.map_some', Option.some.injEq] at h
    have hmem := List.mem_of_find?_eq_some hf
    have hpred := List.find?_some hf
    obtain ⟨e1, e2⟩ := e
    simp only [decide_eq_true_eq] at hpred
    subst hpred
    subst h
    exact hmem

theorem PyDict.hasKey_eq_false_iff (l : List (String × α)) (k : String) :
    PyDict.hasKey l k = false ↔ ∀ e ∈ l, e.1 ≠ k := by
  unfold PyDict.hasKey
  cases h : PyDict.get? l k with
  | none =>
    simp only [Option.isSome_none]
    exact iff_of_true trivial ((PyDict.get?_eq_none_iff l k).mp h)
  | some v =>
    simp only [Option.isSome_some]
    constructor
    · intro hf
      exact absurd hf (by simp)
    · intro hall
      exact absurd rfl (hall (k, v) (PyDict.get?_eq_some_mem l k v h))

theorem PyDict.erase_length_of_get?_some (l : List (String × α)) (k : String)
    (v : α) (hnd : (l.map (fun e => e.1)).Nodup)
    (h : PyDict.get? l k = some v) :
    (PyDict.erase l k).length + 1 = l.length := by
  induction l with
  | nil => exact absurd h (by simp [PyDict.get?])
  | cons e es ih =>
    by_cases hek : e.1 = k
    · have hkes : ∀ x ∈ es, x.1 ≠ k := by
        intro x hx hxk
        have hmem : e.1 ∈ es.map (fun y => y.1) := by
          rw [hek, ← hxk]
          exact List.mem_map_of_mem _ hx
        exact (List.nodup_cons.mp hnd).1 hmem
      have hes : PyDict.erase es k = es := PyDict.erase_eq_self es k hkes
      simp [PyDict.erase, List.filter_cons, hek] at hes ⊢
      simpa [PyDict.erase] using hes
    · have h' : PyDict.get? es k = some v := by
        unfold PyDict.get? at h ⊢
        rwa [List.find?_cons_of_neg _ (by simpa using hek)] at h
      have hrec := ih (List.nodup_cons.mp hnd).2 h'
      simp only [PyDict.erase, List.filter_cons] at hrec ⊢
      rw [if_pos (by simpa using hek)]
      simpa using hrec

theorem PyDict.erase_keys_sublist (l : List (String × α)) (k : String) :
    ((PyDict.erase l k).map (fun e => e.1)).Sublist
      (l.map (fun e => e.1)) :=
  (List.filter_sublist l).map (fun e => e.1)

theorem pendingInv_apply (m : HITLManager) (op : HITLOp)
    (hInv : pendingInv m)
    (hop : match op with
      | HITLOp.approve_start _ _ _ _ _ rid _ =>
        PyDict.hasKey m.pending_requests rid = false
      | _ => True) :
    pendingInv (op.apply m) := by
  obtain ⟨hlen, hnd, hkey⟩ := hInv
  cases op with
  | approve_start a ag d c t rid now =>
    have hfresh : ∀ e ∈ m.pending_requests, e.1 ≠ rid :=
      (PyDict.hasKey_eq_false_iff _ _).mp hop
    have hptab : ((m.request_approval_start a ag d c t rid now).1).pending_requests
        = m.pending_requests
            ++ [(rid, (m.request_approval_start a ag d c t rid now).2)] := by
      simp only [HITLManager.request_approval_start,
        create_hitl_request_request_id]
      exact PyDict.set_eq_append _ _ _ hfresh
    have hpend : ((m.request_approval_start a ag d c t rid now).1).stats.pending
        = m.stats.pending + 1 := rfl
    have hrq : ((m.request_approval_start a ag d c t rid now).2).request_id
        = rid := by
      simp only [HITLManager.request_approval_start,
        create_hitl_request_request_id]
    have hknotin : rid ∉ m.pending_requests.map (fun e => e.1) := by
      intro hmem
      obtain ⟨e, he, he1⟩ := List.mem_map.mp hmem
      exact hfresh e he he1
    simp only [HITLOp.apply]
    unfold pendingInv
    refine ⟨?_, ?_, ?_⟩
    · rw [hpend, hptab]
      simp only [List.length_append, List.length_singleton]
      push_cast
      omega
    · rw [hptab, List.map_append]
      simp [List.nodup_append, hnd, hknotin]
    · rw [hptab]
      intro e he
      rcases List.mem_append.mp he with h1 | h2
      · exact hkey e h1
      · rw [List.mem_singleton.mp h2]
        exact hrq
  | timeout_fire rid auto now =>
    simp only [HITLOp.apply]
    cases hget : PyDict.get? m.pending_requests rid with
    | none =>
      simp only [hget]
      exact ⟨hlen, hnd, hkey⟩
    | some req =>
      simp only [hget]
      by_cases hfut : rid ∈ m.request_futures
      · rw [if_pos hfut]
        have hridreq : req.request_id = rid :=
          hkey (rid, req) (PyDict.get?_eq_some_mem _ _ _ hget)
        have hlen2 := PyDict.erase_length_of_get?_some m.pending_requests rid
          req hnd hget
        unfold pendingInv
        refine ⟨?_, ?_, ?_⟩
        · show m.stats.pending - 1
            = ((PyDict.erase m.pending_requests req.request_id).length : Int)
          rw [hridreq]
          omega
        · show ((PyDict.erase m.pending_requests req.request_id).map
            (fun e => e.1)).Nodup
          exact hnd.sublist (PyDict.erase_keys_sublist _ _)
        · show ∀ e ∈ PyDict.erase m.pending_requests req.request_id,
            e.2.request_id = e.1
          intro e he
          exact hkey e (List.mem_of_mem_filter he)
      · rw [if_neg hfut]
        exact ⟨hlen, hnd, hkey⟩
  | submit r now =>
    simp only [HITLOp.apply]
    cases hget : PyDict.get? m.pending_requests r.request_id with
    | none =>
      simp only [HITLManager.submit_response, hget]
      exact ⟨hlen, hnd, hkey⟩
    | some req =>
      have hpend : ((m.submit_response r now).1).stats.pending
          = m.stats.pending - 1 := by
        unfold HITLManager.submit_response
        simp only [hget]
        split_ifs <;> rfl
      have hptab : ((m.submit_response r now).1).pending_requests
          = PyDict.erase m.pending_requests r.request_id := by
        unfold HITLManager.submit_response
        simp only [hget]
      have hlen2 := PyDict.erase_length_of_get?_some m.pending_requests
        r.request_id req hnd hget
      unfold pendingInv
      refine ⟨?_, ?_, ?_⟩
      · rw [hpend, hptab]
        omega
      · rw [hptab]
        exact hnd.sublist (PyDict.erase_keys_sublist _ _)
      · rw [hptab]
        intro e he
        exact hkey e (List.mem_of_mem_filter he)
  | reset_stats =>
    simp only [HITLOp.apply, HITLManager.reset_statistics]
    exact ⟨rfl, hnd, hkey⟩

theorem pendingInv_runOps (m : HITLManager) (ops : List HITLOp)
    (hInv : pendingInv m) (hval : validOps m ops) :
    pendingInv (runOps m ops) := by
  induction ops generalizing m with
  | nil => simpa [runOps] using hInv
  | cons op ops ih =>
    obtain ⟨hop, hrest⟩ := hval
    exact ih (op.apply m) (pendingInv_apply m op hInv hop) hrest

/-- C10: starting from a fresh manager with any registered policies, every
valid operation sequence (request creations with fresh uuids, response
submissions, timeout firings, statistics resets) keeps the `pending`
statistic equal to the size of the pending-request table; in particular
the counter is never negative. -/
theorem C10_pending_stat_matches_table (ps : List HITLPolicy)
    (ops : List HITLOp)
    (hval : validOps { HITLManager.init with policies := ps } ops) :
    (runOps { HITLManager.init with policies := ps } ops).stats.pending
        = ((runOps { HITLManager.init with policies := ps }
            ops).pending_requests.length : Int) ∧
      0 ≤ (runOps { HITLManager.init with policies := ps } ops).stats.pending := by
  have h := pendingInv_runOps { HITLManager.init with policies := ps } ops
    ⟨rfl, List.nodup_nil, by intro e he; exact absurd he (List.not_mem_nil e)⟩
    hval
  exact ⟨h.1, by rw [h.1]; exact Int.natCast_nonneg _⟩

/-- Witness for C10: the demo sequence (create `rq1`, approve it, stale
timeout for it, reset) on a fresh manager. -/
theorem C10_pending_stat_matches_table_witness :
    validOps { HITLManager.init with policies := [] } demoOps ∧
      ((runOps { HITLManager.init with policies := [] } demoOps).stats.pending
          = ((runOps { HITLManager.init with policies := [] }
              demoOps).pending_requests.length : Int) ∧
        0 ≤ (runOps { HITLManager.init with policies := [] }
            demoOps).stats.pending) :=
  ⟨by simp [validOps, demoOps, HITLManager.init, PyDict.hasKey, PyDict.get?],
    C10_pending_stat_matches_table [] demoOps
      (by simp [validOps, demoOps, HITLManager.init, PyDict.hasKey,
        PyDict.get?])⟩
